import Mathlib

/-!
Verification of the license lookup and normalization engine
(`licenseverificationbot`): a shallow embedding of the Result data model
(`scrapers/base.py`), the four source adapters (`scrapers/florida.py`,
`scrapers/california.py`, `scrapers/texas.py`, `scrapers/naic.py`), the
registry (`scrapers/registry.py`), the match selector (`cogs/verify.py`)
and the monitoring-sweep classification (`cogs/monitor.py`).

Network I/O is modelled by explicit response oracles (`Fetch`); HTML pages
are modelled as an abstract document structure carrying exactly the pieces
the parsers inspect (tables with id/class attributes, rows, cells, links,
page text).  Python string methods used by the code (`lower`, `upper`,
`strip`, `split`, `title`, the `in` substring test) are re-implemented over
`List Char` so that all definitions kernel-reduce on concrete inputs.
-/

/-! ### Python string primitives -/

/-- `str.lower()` (ASCII, as used by the scrapers). -/
def pyLower (s : String) : String := ⟨s.data.map Char.toLower⟩

/-- `str.upper()` (ASCII, as used by the scrapers). -/
def pyUpper (s : String) : String := ⟨s.data.map Char.toUpper⟩

/-- Whitespace recognised by `str.strip()` / `str.split()`. -/
def isWs (c : Char) : Bool := c = ' ' || c = '\t' || c = '\n' || c = '\r'

/-- `str.strip()`: drop leading and trailing whitespace. -/
def pyStrip (s : String) : String :=
  ⟨((s.data.dropWhile isWs).reverse.dropWhile isWs).reverse⟩

/-- Helper for `pySplitWs`: accumulate the current token (reversed). -/
def splitWsAux : List Char → List Char → List String
  | [], acc => if acc.isEmpty then [] else [⟨acc.reverse⟩]
  | c :: cs, acc =>
    if isWs c then
      (if acc.isEmpty then splitWsAux cs [] else (⟨acc.reverse⟩ : String) :: splitWsAux cs [])
    else splitWsAux cs (c :: acc)

/-- `str.split()` with no separator: split on whitespace runs, dropping
empty tokens. -/
def pySplitWs (s : String) : List String := splitWsAux s.data []

/-- Python's `pat in s` substring test. -/
def strContains (s pat : String) : Bool := decide (pat.data <:+: s.data)

/-- Helper for `pyTitle`: the Bool tracks whether the previous character
was alphabetic. -/
def pyTitleAux : List Char → Bool → List Char
  | [], _ => []
  | c :: cs, prevAlpha =>
    (if c.isAlpha then (if prevAlpha then c.toLower else c.toUpper) else c) ::
      pyTitleAux cs c.isAlpha

/-- `str.title()` (ASCII): uppercase the first letter of each alphabetic
run, lowercase the rest. -/
def pyTitle (s : String) : String := ⟨pyTitleAux s.data false⟩

/-! ### Result data model (`scrapers/base.py`, `LicenseResult`) -/

/-- `LicenseResult`: standardized result from any state DOI lookup
(`scrapers/base.py` lines 11-28).  The Python `raw_data` dict is modelled
as an association list. -/
structure LicenseResult where
  found : Bool := false
  active : Bool := false
  full_name : String := ""
  license_number : String := ""
  npn : String := ""
  state : String := ""
  license_type : String := ""
  status : String := ""
  expiration_date : String := ""
  issue_date : String := ""
  resident : Bool := false
  appointments : List String := []
  raw_data : List (String × String) := []
  error : Option String := none
deriving DecidableEq, Repr

/-- The keyword list of `LicenseResult.is_life_licensed`
(`scrapers/base.py` line 33). -/
def lifeKeywords : List String :=
  ["life", "life & annuity", "life and annuity", "life/annuity"]

/-- `LicenseResult.is_life_licensed` (`scrapers/base.py` lines 30-35):
`any(kw in self.license_type.lower() for kw in life_keywords) and self.active`. -/
def LicenseResult.is_life_licensed (r : LicenseResult) : Bool :=
  (lifeKeywords.any (fun kw => strContains (pyLower r.license_type) kw)) && r.active

/-- The `found=false` sentinel `LicenseResult(found=False)`. -/
def notFoundResult : LicenseResult := { found := false }

/-- A failed-lookup sentinel `LicenseResult(error=msg)`. -/
def errorResult (msg : String) : LicenseResult := { error := some msg }

/-- The Python idiom `return results if results else [LicenseResult(found=False)]`
closing every `_parse_results`. -/
def orNotFound (rs : List LicenseResult) : List LicenseResult :=
  if rs.isEmpty then [notFoundResult] else rs

/-! ### Match selector (`cogs/verify.py` lines 80-90)

First pass: first result with `r.found and r.active` and
`(r.is_life_licensed or not r.license_type)`; second pass (only when the
first found nothing): first result with `r.found and r.active`. -/

/-- The two-pass best-match selection from `VerifyCog.verify_license`. -/
def selectMatch (results : List LicenseResult) : Option LicenseResult :=
  match results.find? (fun r =>
      r.found && r.active && (r.is_life_licensed || r.license_type == "")) with
  | some r => some r
  | none => results.find? (fun r => r.found && r.active)

/-! ### Monitoring sweep (`cogs/monitor.py`, `MonitorCog._check_one`) -/

/-- The first/last-name derivation of `_check_one` (`cogs/monitor.py`
lines 86-88): `parts = full_name.strip().split()`,
`first = parts[0] if parts else ""`,
`last = parts[-1] if len(parts) > 1 else parts[0]`.
`none` models the `IndexError` raised by `parts[0]` on a whitespace-only
name (the exception propagates to `check_loop`). -/
def monitorSplitName (full_name : String) : Option (String × String) :=
  match pySplitWs (pyStrip full_name) with
  | [] => none
  | p :: rest =>
    some (p, if (p :: rest).length > 1 then (p :: rest).getLastD "" else p)

/-- The per-individual check classification of `MonitorCog._check_one`
(`cogs/monitor.py` lines 75-124), with the adapter's Result list passed in
as the outcome of the scrape.  Returns `some "ok" / "alert" / "error"`, or
`none` when the name split raises (whitespace-only stored name).  The code
classifies by `active = any(r.found and r.active for r in results)` alone;
it never inspects `r.error`. -/
def monitor_check_one (full_name state : String)
    (results : List LicenseResult) : Option String :=
  if full_name == "" || state == "" then some "error"
  else
    match pySplitWs (pyStrip full_name) with
    | [] => none
    | _ :: _ =>
      if results.any (fun r => r.found && r.active) then some "ok"
      else some "alert"

/-! ### Abstract HTML documents

The scrapers navigate BeautifulSoup documents.  We model a page as the
structure the parsers actually inspect: its lowercasable text, and a list
of tables (in document order) carrying an `id` attribute, a class list,
their `<tr>` rows (`find_all("tr")`), and optionally the rows of a
`<tbody>` child.  A cell carries its stripped text and, when present, the
first `<a href=...>` link inside it. -/

structure HLink where
  text : String := ""
  href : String := ""
deriving DecidableEq, Repr

structure HCell where
  text : String := ""
  link : Option HLink := none
deriving DecidableEq, Repr

structure HRow where
  cells : List HCell := []
deriving DecidableEq, Repr

structure HTable where
  elemId : String := ""
  classes : List String := []
  rows : List HRow := []
  tbody : Option (List HRow) := none
deriving DecidableEq, Repr

structure Page where
  text : String := ""
  tables : List HTable := []
deriving DecidableEq, Repr

/-- `cells[i].get_text(strip=True)` under an in-range guard. -/
def cellTextAt (cells : List HCell) (i : Nat) : String :=
  ((cells.get? i).map HCell.text).getD ""

/-- One HTTP exchange as seen by a lookup: either a response with a status
code and parsed body, or a raised exception (network failure etc.) caught
by the lookup's `except Exception` handler. -/
inductive Fetch (α : Type) where
  | ok (status : Nat) (body : α)
  | exn (msg : String)
deriving DecidableEq

/-! ### NAIC SOLAR fallback adapter (`scrapers/naic.py`) -/

/-- `soup.find("table", class_="results") or soup.find("table")`
(`scrapers/naic.py` line 91). -/
def naic_find_table (page : Page) : Option HTable :=
  (page.tables.find? (fun t => t.classes.contains "results")).orElse
    (fun _ => page.tables.head?)

/-- One iteration of the row loop of `NAICScraper._parse_results`
(`scrapers/naic.py` lines 101-128): rows with fewer than 3 cells are
skipped; otherwise the record is built `found=True`, its `state` is
initialized to the requested code and then overwritten from `cells[2]`
(the `len(cells) > 2` guard always holds once `len(cells) >= 3`), and it
is marked `active=True` with `status="Found in NAIC"`. -/
def naic_parse_row (state_code : String) (row : HRow) : Option LicenseResult :=
  let cells := row.cells
  if cells.length < 3 then none
  else some
    { found := true
      npn := cellTextAt cells 0
      full_name := cellTextAt cells 1
      state := if cells.length > 2 then cellTextAt cells 2
               else (if state_code ≠ "" then state_code else "")
      license_number := if cells.length > 3 then cellTextAt cells 3 else ""
      active := true
      status := "Found in NAIC" }

/-- `NAICScraper._parse_results` (`scrapers/naic.py` lines 86-130).  When no
table is found, both the "no results / not found" text branch and the
fall-through return the same `found=false` sentinel. -/
def naic_parse (state_code : String) (page : Page) : List LicenseResult :=
  match naic_find_table page with
  | none => [notFoundResult]
  | some t =>
    if t.rows.length < 2 then [notFoundResult]
    else orNotFound ((t.rows.drop 1).filterMap (naic_parse_row state_code))

/-- The two HTTP exchanges of `NAICScraper.lookup_by_name`: the session
GET against `SOLAR_URL`, then the search POST. -/
structure NaicEnv where
  initResp : Fetch Unit
  postResp : Fetch Page

/-- The POST payload of `NAICScraper.lookup_by_name` (`scrapers/naic.py`
lines 57-62): name fields stripped, plus a server-side `state` filter when
the adapter was parameterized with a jurisdiction code. -/
def naic_payload (state_code first_name last_name : String) : List (String × String) :=
  [("firstName", pyStrip first_name), ("lastName", pyStrip last_name)] ++
    (if state_code ≠ "" then [("state", pyUpper state_code)] else [])

/-- `NAICScraper.lookup_by_name` (`scrapers/naic.py` lines 45-73).  Any
exception is caught and reported as `LicenseResult(error=str(e))`; a
non-200 status on either exchange is reported as `LicenseResult(error=f"HTTP {status}")`. -/
def naic_lookup_by_name (env : NaicEnv) (state_code _first_name _last_name : String) :
    List LicenseResult :=
  match env.initResp with
  | .exn e => [errorResult e]
  | .ok st _ =>
    if st ≠ 200 then [errorResult ("HTTP " ++ toString st)]
    else
      match env.postResp with
      | .exn e => [errorResult e]
      | .ok st2 page =>
        if st2 ≠ 200 then [errorResult ("HTTP " ++ toString st2)]
        else naic_parse state_code page

/-- `NAICScraper.lookup_by_npn` (`scrapers/naic.py` lines 75-78): the web
form has no NPN field, so the unsupported-operation sentinel is returned. -/
def naic_lookup_by_npn (_npn : String) : List LicenseResult :=
  [{ found := false, error := some "Use name search for NAIC" }]

/-- `NAICScraper.lookup_by_license_number` (`scrapers/naic.py` lines 80-84). -/
def naic_lookup_by_license_number (_license_number : String) : List LicenseResult :=
  [{ found := false, error := some "Use name search for NAIC" }]

/-- A lookup that performs a single POST exchange (California and Texas). -/
structure PostEnv where
  postResp : Fetch Page

/-! ### California adapter (`scrapers/california.py`) -/

/-- The `active` normalization of `CaliforniaScraper._parse_results`
(`scrapers/california.py` line 124), applied to the already-lowercased
status text: `"active" in status_text or "valid" in status_text`. -/
def ca_status_active (status_text : String) : Bool :=
  strContains status_text "active" || strContains status_text "valid"

/-- `soup.find("table", {"id": "gridResult"}) or soup.find("table", class_="table")`
(`scrapers/california.py` line 96). -/
def ca_find_table (page : Page) : Option HTable :=
  (page.tables.find? (fun t => t.elemId == "gridResult")).orElse
    (fun _ => page.tables.find? (fun t => t.classes.contains "table"))

/-- One iteration of the row loop of `CaliforniaScraper._parse_results`
(`scrapers/california.py` lines 111-133): rows with fewer than 2 cells are
skipped; column layout License # | Name | Status | Type. -/
def ca_parse_row (row : HRow) : Option LicenseResult :=
  let cells := row.cells
  if cells.length < 2 then none
  else
    let status_text := pyLower (if cells.length > 2 then cellTextAt cells 2 else "")
    some
      { found := true
        state := "CA"
        license_number := if cells.isEmpty then "" else cellTextAt cells 0
        full_name := if cells.length > 1 then cellTextAt cells 1 else ""
        status := pyTitle status_text
        active := ca_status_active status_text
        license_type := if cells.length > 3 then cellTextAt cells 3 else "" }

/-- `CaliforniaScraper._parse_results` (`scrapers/california.py` lines
90-135).  When neither the `gridResult` table nor a `table`-classed table
exists, the page text is checked for "no data" / "no results"; otherwise
the first table containing a row is used; failing that, the not-found
sentinel is returned. -/
def ca_parse (page : Page) : List LicenseResult :=
  match ca_find_table page with
  | some t => orNotFound ((t.rows.drop 1).filterMap ca_parse_row)
  | none =>
    if strContains (pyLower page.text) "no data" ||
        strContains (pyLower page.text) "no results" then [notFoundResult]
    else
      match page.tables.find? (fun t => !t.rows.isEmpty) with
      | some t => orNotFound ((t.rows.drop 1).filterMap ca_parse_row)
      | none => [notFoundResult]

/-- `CaliforniaScraper.lookup_by_name` (`scrapers/california.py` lines
44-67): a single POST of `{LastName, FirstName}`; exceptions and non-200
statuses degrade to a one-element error Result list. -/
def ca_lookup_by_name (env : PostEnv) (_first_name _last_name : String) :
    List LicenseResult :=
  match env.postResp with
  | .exn e => [errorResult e]
  | .ok st page =>
    if st ≠ 200 then [errorResult ("HTTP " ++ toString st)]
    else ca_parse page

/-- `CaliforniaScraper.lookup_by_license_number` (`scrapers/california.py`
lines 69-83): a single POST of `{LicenseNumber}`. -/
def ca_lookup_by_license_number (env : PostEnv) (_license_number : String) :
    List LicenseResult :=
  match env.postResp with
  | .exn e => [errorResult e]
  | .ok st page =>
    if st ≠ 200 then [errorResult ("HTTP " ++ toString st)]
    else ca_parse page

/-- `CaliforniaScraper.lookup_by_npn` (`scrapers/california.py` lines
85-88): unsupported-operation sentinel. -/
def ca_lookup_by_npn (_npn : String) : List LicenseResult :=
  [{ found := false, error := some "CA does not support NPN lookup" }]

/-! ### Texas adapter (`scrapers/texas.py`) -/

/-- The `active` normalization of `TexasScraper._parse_results`
(`scrapers/texas.py` line 120), applied to the already-lowercased status
text: `"active" in status_text or "current" in status_text`. -/
def tx_status_active (status_text : String) : Bool :=
  strContains status_text "active" || strContains status_text "current"

/-- `soup.find("table", class_="resultsTable") or soup.find("table")`
(`scrapers/texas.py` line 99). -/
def tx_find_table (page : Page) : Option HTable :=
  (page.tables.find? (fun t => t.classes.contains "resultsTable")).orElse
    (fun _ => page.tables.head?)

/-- One iteration of the row loop of `TexasScraper._parse_results`
(`scrapers/texas.py` lines 106-128): rows with fewer than 2 cells are
skipped; column layout Name | License # | Status | Type; when no third
cell exists the defaults `status=""`, `active=False` stand. -/
def tx_parse_row (row : HRow) : Option LicenseResult :=
  let cells := row.cells
  if cells.length < 2 then none
  else
    let status_text := pyLower (cellTextAt cells 2)
    some
      { found := true
        state := "TX"
        full_name := cellTextAt cells 0
        license_number := if cells.length > 1 then cellTextAt cells 1 else ""
        status := if cells.length > 2 then pyTitle status_text else ""
        active := if cells.length > 2 then tx_status_active status_text else false
        license_type := if cells.length > 3 then cellTextAt cells 3 else "" }

/-- `TexasScraper._parse_results` (`scrapers/texas.py` lines 93-130).  Both
no-table branches return the not-found sentinel. -/
def tx_parse (page : Page) : List LicenseResult :=
  match tx_find_table page with
  | none => [notFoundResult]
  | some t => orNotFound ((t.rows.drop 1).filterMap tx_parse_row)

/-- `TexasScraper.lookup_by_name` (`scrapers/texas.py` lines 42-66): a
single POST of `{perlession, searchName, action}`. -/
def tx_lookup_by_name (env : PostEnv) (_first_name _last_name : String) :
    List LicenseResult :=
  match env.postResp with
  | .exn e => [errorResult e]
  | .ok st page =>
    if st ≠ 200 then [errorResult ("HTTP " ++ toString st)]
    else tx_parse page

/-- `TexasScraper.lookup_by_license_number` (`scrapers/texas.py` lines
68-86). -/
def tx_lookup_by_license_number (env : PostEnv) (_license_number : String) :
    List LicenseResult :=
  match env.postResp with
  | .exn e => [errorResult e]
  | .ok st page =>
    if st ≠ 200 then [errorResult ("HTTP " ++ toString st)]
    else tx_parse page

/-- `TexasScraper.lookup_by_npn` (`scrapers/texas.py` lines 88-91):
unsupported-operation sentinel. -/
def tx_lookup_by_npn (_npn : String) : List LicenseResult :=
  [{ found := false, error := some "TX does not support NPN lookup" }]

/-! ### Florida adapter (`scrapers/florida.py`)

The detail fetch `FloridaScraper._fetch_detail` has its own
`except Exception` handler and always returns a dict (an error dict on
failure), so it is modelled as a total oracle from the detail path to the
label/value dict. -/

/-- `dict.get(key, default)` on the association-list model of a dict. -/
def dictGet (d : List (String × String)) (k dflt : String) : String :=
  ((d.find? (fun p => p.1 == k)).map Prod.snd).getD dflt

/-- The full fixed-schema form payload of `FloridaScraper._build_form_data`
(`scrapers/florida.py` lines 45-90): name/number/NPN filters populated,
every other field present but empty or defaulted. -/
def fl_build_form_data (first_name last_name license_number npn : String) :
    List (String × String) :=
  [("IndividualFNameFilter", pyStrip first_name),
   ("IndividualLNameFilter", pyStrip last_name),
   ("IndividualMNameFilter", ""),
   ("EmailAddressBeginContainFilter", "1"),
   ("EmailFilter", ""),
   ("FirmNameBeginContainFilter", "1"),
   ("FirmNameFilter", ""),
   ("ResidentStatusFilter", ""),
   ("FLLicenseNoFilter", pyStrip license_number),
   ("NPNNoFilter", pyStrip npn),
   ("LicenseStatusFilter", "1"),
   ("LicenseCategoryFilter", ""),
   ("LicenseIssueDateFromFilter", ""),
   ("LicenseIssueDateToFilter", ""),
   ("OnlyLicWithNoQuApptFilter", "false"),
   ("BusinessStateFilter", ""),
   ("BusinessCityFilter", ""),
   ("BusinessCountyFilter", ""),
   ("BusinessZipFilter", ""),
   ("CEDueDtFromFilter", ""),
   ("CEDueDtToFilter", ""),
   ("CEHrsNotMetFilter", "false"),
   ("AppointingEntityTYCLFilter", ""),
   ("AppointingEntityStatusFilter", ""),
   ("AppointingEntityStatusDateFromFilter", ""),
   ("AppointingEntityStatusDateToFilter", ""),
   ("LicenseeSearchInfo.PagingInfo.SortBy", "Name"),
   ("LicenseeSearchInfo.PagingInfo.SortDesc", "False"),
   ("LicenseeSearchInfo.PagingInfo.CurrentPage", "1"),
   ("AppointingEntityIdFilter", ""),
   ("AppointingEntityDisplayName", ""),
   ("TabLLValue", "0"),
   ("TabCEValue", "0"),
   ("TabAppValue", ""),
   ("hdnLApptEntitySearchListUrl", "/Home/GetAppointingEntityListForSearch"),
   ("hdnLicenseeSearchListUrl", "/Home/GetLicenseeSearchListPartialView")]

/-- One iteration of the row loop of `FloridaScraper._parse_search_results`
(`scrapers/florida.py` lines 165-199): rows with fewer than 2 cells or no
link in the name cell are skipped; otherwise the detail page for the
link's href is fetched and merged into the Result
(`active = detail.get("status", "").upper() == "VALID"`). -/
def fl_parse_row (fetchDetail : String → List (String × String)) (row : HRow) :
    Option LicenseResult :=
  let cells := row.cells
  if cells.length < 2 then none
  else
    match ((cells.get? 0).map HCell.link).getD none with
    | none => none
    | some link =>
      let detail := fetchDetail link.href
      some
        { found := true
          state := "FL"
          full_name := link.text
          license_number := if cells.length > 1 then cellTextAt cells 1 else ""
          status := dictGet detail "status" "Unknown"
          active := pyUpper (dictGet detail "status" "") == "VALID"
          license_type := dictGet detail "type" ""
          npn := dictGet detail "npn" ""
          expiration_date := dictGet detail "expiration" ""
          issue_date := dictGet detail "issue_date" ""
          raw_data := detail }

/-- The bounded row loop of `FloridaScraper._parse_search_results`: details
are fetched for at most the first 5 parsed candidates
(`if len(results) >= 5: break`). -/
def fl_rows_loop (fetchDetail : String → List (String × String)) :
    List HRow → List LicenseResult → List LicenseResult
  | [], acc => acc
  | row :: rest, acc =>
    match fl_parse_row fetchDetail row with
    | none => fl_rows_loop fetchDetail rest acc
    | some r =>
      let acc2 := acc ++ [r]
      if 5 ≤ acc2.length then acc2 else fl_rows_loop fetchDetail rest acc2

/-- `FloridaScraper._parse_search_results` (`scrapers/florida.py` lines
145-209): "no licensee" / "no results" page text, a missing
`table`-classed table, or a missing `tbody` each degrade to the not-found
sentinel; an unproductive row loop likewise. -/
def fl_parse_search (fetchDetail : String → List (String × String))
    (page : Page) : List LicenseResult :=
  if strContains (pyLower page.text) "no licensee" ||
      strContains (pyLower page.text) "no results" then [notFoundResult]
  else
    match page.tables.find? (fun t => t.classes.contains "table") with
    | none => [notFoundResult]
    | some t =>
      match t.tbody with
      | none => [notFoundResult]
      | some rows => orNotFound (fl_rows_loop fetchDetail rows [])

/-- The exchanges of one `FloridaScraper._search`: session-init GET, form
POST, and the detail-page oracle. -/
structure FlEnv where
  initResp : Fetch Unit
  postResp : Fetch Page
  fetchDetail : String → List (String × String)

/-- `FloridaScraper._search` (`scrapers/florida.py` lines 92-121): GET for
cookies, POST of the full form, then parse; exceptions and non-200
statuses degrade to a one-element error Result list. -/
def fl_search (env : FlEnv) : List LicenseResult :=
  match env.initResp with
  | .exn e => [errorResult e]
  | .ok st _ =>
    if st ≠ 200 then [errorResult ("HTTP " ++ toString st ++ " on GET")]
    else
      match env.postResp with
      | .exn e => [errorResult e]
      | .ok st2 page =>
        if st2 ≠ 200 then [errorResult ("HTTP " ++ toString st2 ++ " on POST")]
        else fl_parse_search env.fetchDetail page

/-- `FloridaScraper.lookup_by_name` (`scrapers/florida.py` lines 123-129). -/
def fl_lookup_by_name (env : FlEnv) (first_name last_name : String) :
    List LicenseResult :=
  let _form := fl_build_form_data first_name last_name "" ""
  fl_search env

/-- `FloridaScraper.lookup_by_npn` (`scrapers/florida.py` lines 131-135):
Florida supports NPN search through the same form. -/
def fl_lookup_by_npn (env : FlEnv) (npn : String) : List LicenseResult :=
  let _form := fl_build_form_data "" "" "" npn
  fl_search env

/-- `FloridaScraper.lookup_by_license_number` (`scrapers/florida.py` lines
137-143). -/
def fl_lookup_by_license_number (env : FlEnv) (license_number : String) :
    List LicenseResult :=
  let _form := fl_build_form_data "" "" license_number ""
  fl_search env

/-! ### Sessions, release, and the registry
(`scrapers/registry.py`; the `close` methods of `scrapers/florida.py` lines
344-346, `california.py` 137-139, `texas.py` 132-134, `naic.py` 132-134;
`StateScraper.close` in `scrapers/base.py` lines 61-63 is a no-op).

Every adapter holds `_session: Optional[aiohttp.ClientSession]`, initially
`None`; `aiohttp.ClientSession.close()` marks the session closed and tears
down the connector. -/

structure Session where
  closed : Bool
deriving DecidableEq, Repr

/-- The shared body `if self._session and not self._session.closed: await
self._session.close()`.  Returns the new session state and whether a
network teardown was performed. -/
def closeSession : Option Session → Option Session × Bool
  | none => (none, false)
  | some s => if s.closed then (some s, false) else (some { closed := true }, true)

/-- Dedicated-adapter tags, the values of `_SCRAPER_MAP`
(`scrapers/registry.py` lines 15-19). -/
inductive DedTag where
  | fl
  | ca
  | tx
deriving DecidableEq, Repr

/-- An adapter instance: its constructor identity plus its only mutable
state, the owned session (`None` right after construction). -/
inductive Scraper where
  | florida (session : Option Session)
  | california (session : Option Session)
  | texas (session : Option Session)
  | naic (state_code : String) (session : Option Session)
deriving DecidableEq, Repr

/-- The `_session` field of any adapter. -/
def Scraper.session : Scraper → Option Session
  | .florida s => s
  | .california s => s
  | .texas s => s
  | .naic _ s => s

/-- `_SCRAPER_MAP[state_code]()`: construct a fresh dedicated adapter,
whose `__init__` sets `_session = None`. -/
def mkDedicated : DedTag → Scraper
  | .fl => .florida none
  | .ca => .california none
  | .tx => .texas none

/-- `_SCRAPER_MAP` (`scrapers/registry.py` lines 15-19). -/
def SCRAPER_MAP : List (String × DedTag) := [("FL", .fl), ("CA", .ca), ("TX", .tx)]

/-- `get_scraper` (`scrapers/registry.py` lines 24-38): normalize the code
with `upper().strip()`, construct the mapped dedicated adapter on a hit,
otherwise construct `NAICScraper(state_code=normalized_code)`. -/
def get_scraper (state_code : String) : Scraper :=
  let c := pyStrip (pyUpper state_code)
  match SCRAPER_MAP.lookup c with
  | some tag => mkDedicated tag
  | none => .naic c none

/-- The `close` method shared verbatim by all four adapters, lifted to the
adapter instance. -/
def scraper_close : Scraper → Scraper × Bool
  | .florida s => let p := closeSession s; (.florida p.1, p.2)
  | .california s => let p := closeSession s; (.california p.1, p.2)
  | .texas s => let p := closeSession s; (.texas p.1, p.2)
  | .naic sc s => let p := closeSession s; (.naic sc p.1, p.2)

/-! ### Concrete fixtures used by counterexamples and witnesses -/

/-- A found, active Result in the primary (life) category. -/
def rPrimaryLife : LicenseResult := { found := true, active := true, license_type := "Life" }

/-- A found, active, non-primary Result whose source reported no license
category (empty `license_type`). -/
def rBlankType : LicenseResult := { found := true, active := true, license_type := "" }

/-- A found, active, non-primary Result with a non-empty category. -/
def rHealthType : LicenseResult := { found := true, active := true, license_type := "Health" }

/-- Header row of a NAIC SOLAR results table. -/
def naicHeaderRow : HRow :=
  { cells := [{ text := "NPN" }, { text := "Name" }, { text := "State" }] }

/-- A NAIC SOLAR data row whose state column reads "NY". -/
def naicRowNY : HRow :=
  { cells := [{ text := "123" }, { text := "John Doe" }, { text := "NY" }] }

/-- A NAIC SOLAR results page with one data row. -/
def naicPageNY : Page :=
  { text := "", tables := [{ classes := ["results"], rows := [naicHeaderRow, naicRowNY] }] }

/-- The Result the NAIC parser produces from `naicRowNY`. -/
def naicResultNY : LicenseResult :=
  { found := true, npn := "123", full_name := "John Doe", state := "NY",
    active := true, status := "Found in NAIC" }

/-! ## Claim theorems -/

/-- C7: `is_life_licensed` holds exactly when the Result is active and its
license category, lowercased, contains one of the (lowercase) life
keywords — the case-insensitive substring test of `scrapers/base.py`
lines 30-35. -/
theorem is_life_licensed_iff (r : LicenseResult) :
    r.is_life_licensed = true ↔
      (r.active = true ∧ ∃ kw ∈ lifeKeywords, kw.data <:+: (pyLower r.license_type).data) := by
  simp only [LicenseResult.is_life_licensed, Bool.and_eq_true, List.any_eq_true,
    strContains, decide_eq_true_eq]
  exact and_comm

/-- C7 witness: the concrete life-category Result satisfies the spec-side
characterization. -/
theorem is_life_licensed_iff_witness :
    rPrimaryLife.active = true ∧
      ∃ kw ∈ lifeKeywords, kw.data <:+: (pyLower rPrimaryLife.license_type).data :=
  (is_life_licensed_iff rPrimaryLife).mp (by decide)

/-- C1 counterexample: the first selection pass of
`VerifyCog.verify_license` (`cogs/verify.py` lines 80-90) also accepts a
found, active Result with an empty `license_type`, so a non-primary
blank-category Result placed before a primary (life) Result is selected
instead of the primary one, contradicting order independence. -/
theorem selector_blank_category_beats_primary :
    rPrimaryLife.is_life_licensed = true ∧
    rBlankType.is_life_licensed = false ∧
    selectMatch [rBlankType, rPrimaryLife] = some rBlankType ∧
    rBlankType ≠ rPrimaryLife := by decide

/-- C1 amended: for a pair of found, active Results of which exactly one is
primary-licensed, the selector returns the primary one regardless of
order, provided the non-primary Result's `license_type` is non-empty (a
blank-category Result is treated like a primary match by the first pass). -/
theorem selector_prefers_primary_pair (r1 r2 : LicenseResult)
    (h1f : r1.found = true) (h1a : r1.active = true) (h1p : r1.is_life_licensed = true)
    (h2f : r2.found = true) (h2a : r2.active = true) (h2p : r2.is_life_licensed = false)
    (h2t : r2.license_type ≠ "") :
    selectMatch [r1, r2] = some r1 ∧ selectMatch [r2, r1] = some r1 := by
  have h2t' : (r2.license_type == "") = false := beq_eq_false_iff_ne.mpr h2t
  constructor <;>
    simp [selectMatch, List.find?, h1f, h1a, h1p, h2f, h2a, h2p, h2t']

/-- C1 witness: the amended selection property at a concrete pair. -/
theorem selector_prefers_primary_pair_witness :
    selectMatch [rHealthType, rPrimaryLife] = some rPrimaryLife :=
  (selector_prefers_primary_pair rPrimaryLife rHealthType rfl rfl (by decide) rfl rfl
    (by decide) (by decide)).2

/-- C2: evaluating `MonitorCog._check_one` at a completed-input check whose
lookup produced a single `errorMessage`-bearing Result (as after an HTTP
500): the code classifies it "alert" — it never inspects `r.error` — while
only a missing name/state input yields "error". -/
theorem monitor_error_result_classified_alert :
    monitor_check_one "John Doe" "FL" [errorResult "HTTP 500"] = some "alert" ∧
    monitor_check_one "" "FL" [] = some "error" := by decide

/-- C3 counterexample: the status keyword set is not uniform across
adapters — California's normalization maps "current" to inactive and
Texas's maps "Valid" to inactive. -/
theorem status_keywords_not_uniform :
    ca_status_active (pyLower "current") = false ∧
    tx_status_active (pyLower "Valid") = false := by decide

/-- C3 amended: status normalization is case-insensitive substring
matching, but against per-adapter keyword sets: California tests
{"active", "valid"} (`scrapers/california.py` line 124) and Texas tests
{"active", "current"} (`scrapers/texas.py` line 120).  "ACTIVE" maps to
active on both; "Revoked", "Expired" and "" map to inactive on both;
"Valid" is active only on California and "current" only on Texas. -/
theorem status_normalization_per_adapter :
    (∀ s, ca_status_active (pyLower s) = true ↔
      ("active".data <:+: (pyLower s).data ∨ "valid".data <:+: (pyLower s).data)) ∧
    (∀ s, tx_status_active (pyLower s) = true ↔
      ("active".data <:+: (pyLower s).data ∨ "current".data <:+: (pyLower s).data)) ∧
    (ca_status_active (pyLower "ACTIVE") = true ∧
      ca_status_active (pyLower "Valid") = true ∧
      ca_status_active (pyLower "Revoked") = false ∧
      ca_status_active (pyLower "Expired") = false ∧
      ca_status_active (pyLower "") = false) ∧
    (tx_status_active (pyLower "ACTIVE") = true ∧
      tx_status_active (pyLower "current") = true ∧
      tx_status_active (pyLower "Revoked") = false ∧
      tx_status_active (pyLower "Expired") = false ∧
      tx_status_active (pyLower "") = false) := by
  refine ⟨fun s => ?_, fun s => ?_, by decide, by decide⟩
  · simp [ca_status_active, strContains]
  · simp [tx_status_active, strContains]

/-- C10: the monitoring sweep derives the lookup name from the stored full
name by whitespace splitting — first token as first name, last token as
last name (middle tokens dropped), and the sole token doubling as both for
single-token names (`cogs/monitor.py` lines 86-88). -/
theorem monitor_name_split_first_last (full_name : String)
    (h : pySplitWs (pyStrip full_name) ≠ []) :
    monitorSplitName full_name =
      some ((pySplitWs (pyStrip full_name)).headD "",
        (pySplitWs (pyStrip full_name)).getLastD "") := by
  unfold monitorSplitName
  cases hp : pySplitWs (pyStrip full_name) with
  | nil => exact absurd hp h
  | cons p rest =>
    cases rest with
    | nil => simp
    | cons q rs => simp [Nat.succ_lt_succ]

/-- C10 witness: a three-token name keeps the first and last tokens and
drops the middle one. -/
theorem monitor_name_split_first_last_witness :
    monitorSplitName "John Q Public" = some ("John", "Public") :=
  (monitor_name_split_first_last "John Q Public" (by decide)).trans (by decide)

/-- The `results if results else [sentinel]` idiom never yields `[]`. -/
lemma orNotFound_ne (rs : List LicenseResult) : orNotFound rs ≠ [] := by
  unfold orNotFound
  split
  · simp
  · rename_i h
    exact fun hnil => h (by simp [hnil])

/-- `NAICScraper._parse_results` never yields `[]`. -/
lemma naic_parse_ne (state_code : String) (page : Page) :
    naic_parse state_code page ≠ [] := by
  unfold naic_parse
  split
  · simp
  · split
    · simp
    · exact orNotFound_ne _

/-- `CaliforniaScraper._parse_results` never yields `[]`. -/
lemma ca_parse_ne (page : Page) : ca_parse page ≠ [] := by
  unfold ca_parse
  split
  · exact orNotFound_ne _
  · split
    · simp
    · split
      · exact orNotFound_ne _
      · simp

/-- `TexasScraper._parse_results` never yields `[]`. -/
lemma tx_parse_ne (page : Page) : tx_parse page ≠ [] := by
  unfold tx_parse
  split
  · simp
  · exact orNotFound_ne _

/-- `FloridaScraper._parse_search_results` never yields `[]`. -/
lemma fl_parse_search_ne (fetchDetail : String → List (String × String))
    (page : Page) : fl_parse_search fetchDetail page ≠ [] := by
  unfold fl_parse_search
  split
  · simp
  · split
    · simp
    · split
      · simp
      · exact orNotFound_ne _

/-- `FloridaScraper._search` never yields `[]`. -/
lemma fl_search_ne (env : FlEnv) : fl_search env ≠ [] := by
  unfold fl_search
  split
  · simp
  · split
    · simp
    · split
      · simp
      · split
        · simp
        · exact fl_parse_search_ne _ _

/-- C4: every lookup operation of every adapter is total (the embedding is
a function — every Python exception path is caught and reified) and
returns a non-empty Result list for every response environment; the
unsupported operations return exactly the single `found=false` sentinel
with an explanatory `errorMessage`. -/
theorem lookups_never_raise_never_empty :
    (∀ env sc first last, naic_lookup_by_name env sc first last ≠ []) ∧
    (∀ npn, naic_lookup_by_npn npn =
      [{ found := false, error := some "Use name search for NAIC" }]) ∧
    (∀ num, naic_lookup_by_license_number num =
      [{ found := false, error := some "Use name search for NAIC" }]) ∧
    (∀ env first last, ca_lookup_by_name env first last ≠ []) ∧
    (∀ env num, ca_lookup_by_license_number env num ≠ []) ∧
    (∀ npn, ca_lookup_by_npn npn =
      [{ found := false, error := some "CA does not support NPN lookup" }]) ∧
    (∀ env first last, tx_lookup_by_name env first last ≠ []) ∧
    (∀ env num, tx_lookup_by_license_number env num ≠ []) ∧
    (∀ npn, tx_lookup_by_npn npn =
      [{ found := false, error := some "TX does not support NPN lookup" }]) ∧
    (∀ env first last, fl_lookup_by_name env first last ≠ []) ∧
    (∀ env npn, fl_lookup_by_npn env npn ≠ []) ∧
    (∀ env num, fl_lookup_by_license_number env num ≠ []) := by
  refine ⟨fun env sc f l => ?_, fun _ => rfl, fun _ => rfl,
    fun env f l => ?_, fun env n => ?_, fun _ => rfl,
    fun env f l => ?_, fun env n => ?_, fun _ => rfl,
    fun env f l => fl_search_ne env, fun env n => fl_search_ne env,
    fun env n => fl_search_ne env⟩
  · unfold naic_lookup_by_name
    split
    · simp
    · split
      · simp
      · split
        · simp
        · split
          · simp
          · exact naic_parse_ne _ _
  · unfold ca_lookup_by_name
    split
    · simp
    · split
      · simp
      · exact ca_parse_ne _
  · unfold ca_lookup_by_license_number
    split
    · simp
    · split
      · simp
      · exact ca_parse_ne _
  · unfold tx_lookup_by_name
    split
    · simp
    · split
      · simp
      · exact tx_parse_ne _
  · unfold tx_lookup_by_license_number
    split
    · simp
    · split
      · simp
      · exact tx_parse_ne _

/-- C4 witness: a successful concrete NAIC lookup is non-empty. -/
theorem lookups_never_raise_never_empty_witness :
    naic_lookup_by_name ⟨Fetch.ok 200 (), Fetch.ok 200 naicPageNY⟩ "WA" "John" "Doe" ≠ [] :=
  lookups_never_raise_never_empty.1 ⟨Fetch.ok 200 (), Fetch.ok 200 naicPageNY⟩ "WA" "John" "Doe"

/-- C5: `get_scraper` is total, uppercases and trims the code, and always
returns a freshly constructed adapter (its `_session` is `None`): on a
dedicated-map hit the matching dedicated adapter, on a miss the NAIC
fallback parameterized with the normalized code. -/
theorem get_scraper_total_fresh (state_code : String) :
    (get_scraper state_code).session = none ∧
    (∀ tag, SCRAPER_MAP.lookup (pyStrip (pyUpper state_code)) = some tag →
      get_scraper state_code = mkDedicated tag) ∧
    (SCRAPER_MAP.lookup (pyStrip (pyUpper state_code)) = none →
      get_scraper state_code = Scraper.naic (pyStrip (pyUpper state_code)) none) := by
  simp only [get_scraper]
  cases h : SCRAPER_MAP.lookup (pyStrip (pyUpper state_code)) with
  | none => simp [h, Scraper.session]
  | some tag => cases tag <;> simp [h, Scraper.session, mkDedicated]

/-- C5 witness: a mapped code (hitting after normalization) constructs the
dedicated Florida adapter; an unmapped code falls back to the NAIC adapter
configured with the normalized code. -/
theorem get_scraper_total_fresh_witness :
    get_scraper " fl " = Scraper.florida none ∧
    get_scraper "ny" = Scraper.naic "NY" none := by
  constructor
  · exact ((get_scraper_total_fresh " fl ").2.1 DedTag.fl (by decide)).trans (by decide)
  · exact ((get_scraper_total_fresh "ny").2.2 (by decide)).trans (by decide)

/-- C6: `close` is idempotent on every adapter instance: a second call
never performs another network teardown and leaves the state unchanged,
and a call on an adapter that never opened a session does nothing (and, as
a total function, never raises). -/
theorem scraper_close_idempotent (s : Scraper) :
    (scraper_close (scraper_close s).1).2 = false ∧
    (scraper_close (scraper_close s).1).1 = (scraper_close s).1 ∧
    (s.session = none → scraper_close s = (s, false)) := by
  cases s <;> rename_i sess <;> rcases sess with _ | ⟨_ | _⟩ <;>
    simp [scraper_close, closeSession, Scraper.session]

/-- C6 witness: closing a never-opened adapter is a safe no-op. -/
theorem scraper_close_idempotent_witness :
    scraper_close (Scraper.naic "NY" none) = (Scraper.naic "NY" none, false) :=
  (scraper_close_idempotent (Scraper.naic "NY" none)).2.2 rfl

/-- C8: every Result the NAIC fallback parser marks as found is
optimistically marked `active=true` with `status` set to the
"Found in NAIC" national-registry marker (`scrapers/naic.py` lines
106-122). -/
theorem naic_found_results_active_unconfirmed (state_code : String) (page : Page)
    (r : LicenseResult) (hmem : r ∈ naic_parse state_code page)
    (hfound : r.found = true) :
    r.active = true ∧ r.status = "Found in NAIC" := by
  have hnot : r ≠ notFoundResult := by
    intro he
    rw [he] at hfound
    simp [notFoundResult] at hfound
  unfold naic_parse at hmem
  split at hmem
  · exact absurd (by simpa using hmem) hnot
  · split at hmem
    · exact absurd (by simpa using hmem) hnot
    · unfold orNotFound at hmem
      split at hmem
      · exact absurd (by simpa using hmem) hnot
      · obtain ⟨row, _, hparse⟩ := List.mem_filterMap.mp hmem
        simp only [naic_parse_row] at hparse
        by_cases hl : row.cells.length < 3
        · simp [hl] at hparse
        · rw [if_neg hl, Option.some.injEq] at hparse
          subst hparse
          exact ⟨rfl, rfl⟩

/-- C8 witness: the found Result of the concrete NAIC page is active and
carries the marker. -/
theorem naic_found_results_active_unconfirmed_witness :
    naicResultNY.active = true ∧ naicResultNY.status = "Found in NAIC" :=
  naic_found_results_active_unconfirmed "WA" naicPageNY naicResultNY (by decide) (by decide)

/-- C9 counterexample: a full NAIC name lookup parameterized with
jurisdiction "WA" against a page whose row's state column reads "NY"
returns a found Result tagged "NY", not the requested code — the
client-side initialization with the requested code is always overwritten
from `cells[2]` (`scrapers/naic.py` lines 106-117). -/
theorem naic_state_tag_counterexample :
    naic_lookup_by_name ⟨Fetch.ok 200 (), Fetch.ok 200 naicPageNY⟩ "WA" "John" "Doe" =
      [naicResultNY] ∧ naicResultNY.found = true ∧ naicResultNY.state ≠ "WA" := by
  decide

/-- C9 amended: the requested jurisdiction code is sent to the national
source as a server-side `state` filter (see `naic_payload`), but every
found Result's `state` field is the state text scraped from the row's
third cell, not the requested code (which only seeds the field before the
unconditional overwrite). -/
theorem naic_row_state_from_third_cell (state_code : String) (row : HRow)
    (h : 3 ≤ row.cells.length) :
    (naic_parse_row state_code row).map LicenseResult.state =
      some (cellTextAt row.cells 2) := by
  have h3 : ¬ row.cells.length < 3 := by omega
  have h2 : row.cells.length > 2 := by omega
  simp [naic_parse_row, h3, h2]

/-- C9 witness: the amended tagging property at the concrete row. -/
theorem naic_row_state_from_third_cell_witness :
    (naic_parse_row "WA" naicRowNY).map LicenseResult.state = some "NY" :=
  (naic_row_state_from_third_cell "WA" naicRowNY (by decide)).trans (by decide)
